import Mathlib

/-!
Shallow embedding of `backend/app.py` from the Jira-Test-Case-Generator
repository: the session/credential cache, the content-addressed response
cache, and the three request handlers built on them
(`authenticate_jira`, `fetch_epic_stories`, `generate_test_cases`).

Python dictionaries are modelled as association lists, external
collaborators (the `jira` client library and the generative-language
model) as explicit oracle records returning `Except`, raised exceptions
as `Except.error`, and HTTP error responses as an `HTTPException`
structure.  Machine words inside the MD5 fingerprint are `Nat` reduced
modulo `2 ^ 32`.
-/

set_option autoImplicit false

namespace JiraTCG

/-! ## Python dictionary model (insertion-order association list) -/

/-- `d.get(k)`: first binding for `k`, if any. -/
def dictGet {α : Type} : List (String × α) → String → Option α
  | [], _ => none
  | (k, v) :: rest, key => if k = key then some v else dictGet rest key

/-- `d[k] = v`: overwrite the binding for `k` in place, or append it. -/
def dictSet {α : Type} : List (String × α) → String → α → List (String × α)
  | [], key, v => [(key, v)]
  | (k, w) :: rest, key, v =>
      if k = key then (key, v) :: rest else (k, w) :: dictSet rest key v

theorem dictGet_dictSet_self {α : Type} (d : List (String × α)) (k : String) (v : α) :
    dictGet (dictSet d k v) k = some v := by
  induction d with
  | nil => simp [dictGet, dictSet]
  | cons p rest ih =>
      obtain ⟨k', w⟩ := p
      by_cases h : k' = k
      · simp [dictGet, dictSet, h]
      · simp [dictGet, dictSet, h, ih]

theorem dictGet_mem {α : Type} {d : List (String × α)} {k : String} {v : α}
    (h : dictGet d k = some v) : (k, v) ∈ d := by
  induction d with
  | nil => simp [dictGet] at h
  | cons p rest ih =>
      obtain ⟨k', w⟩ := p
      by_cases hk : k' = k
      · subst hk
        simp [dictGet] at h
        simp [h]
      · simp [dictGet, hk] at h
        exact List.mem_cons_of_mem _ (ih h)

theorem mem_dictSet {α : Type} {d : List (String × α)} {k k' : String} {v v' : α}
    (h : (k', v') ∈ dictSet d k v) : (k', v') = (k, v) ∨ (k', v') ∈ d := by
  induction d with
  | nil => simpa [dictSet] using h
  | cons p rest ih =>
      obtain ⟨k₀, w⟩ := p
      by_cases hk : k₀ = k
      · simp [dictSet, hk] at h
        rcases h with h | h
        · exact Or.inl (by simp [h])
        · exact Or.inr (List.mem_cons_of_mem _ h)
      · simp [dictSet, hk] at h
        rcases h with h | h
        · exact Or.inr (by simp [h])
        · rcases ih h with h' | h'
          · exact Or.inl h'
          · exact Or.inr (List.mem_cons_of_mem _ h')

/-! ## Python value semantics used by the source -/

/-- Python `a or b` on an optional string: `None` and `""` are falsy. -/
def pyStrOr (a : Option String) (b : String) : String :=
  match a with
  | none => b
  | some s => if s = "" then b else s

/-- Python `a or b` on an optional int (`e.status_code or 500`):
`None` and `0` are falsy. -/
def pyOrNat (a : Option Nat) (b : Nat) : Nat :=
  match a with
  | none => b
  | some n => if n = 0 then b else n

/-- Whitespace characters recognised by Python `str.split()` (ASCII part). -/
def pyIsSpace (c : Char) : Bool :=
  c = ' ' || c = '\t' || c = '\n' || c = '\x0d' || c = '\x0b' || c = '\x0c'

/-- Worker for `pySplit`, carrying the current (reversed) token. -/
def pySplitAux : List Char → List Char → List String
  | [], [] => []
  | [], cur => [String.mk cur.reverse]
  | c :: rest, cur =>
      if pyIsSpace c then
        match cur with
        | [] => pySplitAux rest []
        | _ :: _ => String.mk cur.reverse :: pySplitAux rest []
      else pySplitAux rest (c :: cur)

/-- Python `s.split()`: split on runs of whitespace, dropping empty pieces. -/
def pySplit (s : String) : List String :=
  pySplitAux s.data []

/-! ## `str.encode()`: UTF-8 bytes of a string, as `List Nat` -/

/-- UTF-8 encoding of one character. -/
def utf8Bytes (c : Char) : List Nat :=
  let n := c.toNat
  if n < 0x80 then [n]
  else if n < 0x800 then
    [0xC0 ||| (n >>> 6), 0x80 ||| (n &&& 0x3F)]
  else if n < 0x10000 then
    [0xE0 ||| (n >>> 12), 0x80 ||| ((n >>> 6) &&& 0x3F), 0x80 ||| (n &&& 0x3F)]
  else
    [0xF0 ||| (n >>> 18), 0x80 ||| ((n >>> 12) &&& 0x3F),
     0x80 ||| ((n >>> 6) &&& 0x3F), 0x80 ||| (n &&& 0x3F)]

/-- `s.encode()`: the UTF-8 byte sequence of `s`. -/
def strBytes (s : String) : List Nat :=
  (s.data.map utf8Bytes).flatten

/-! ## `hashlib.md5(...).hexdigest()` -/

/-- Round constants `K[i] = floor(2^32 * abs(sin(i + 1)))` (RFC 1321). -/
def md5K : List Nat :=
  [0xd76aa478, 0xe8c7b756, 0x242070db, 0xc1bdceee,
   0xf57c0faf, 0x4787c62a, 0xa8304613, 0xfd469501,
   0x698098d8, 0x8b44f7af, 0xffff5bb1, 0x895cd7be,
   0x6b901122, 0xfd987193, 0xa679438e, 0x49b40821,
   0xf61e2562, 0xc040b340, 0x265e5a51, 0xe9b6c7aa,
   0xd62f105d, 0x02441453, 0xd8a1e681, 0xe7d3fbc8,
   0x21e1cde6, 0xc33707d6, 0xf4d50d87, 0x455a14ed,
   0xa9e3e905, 0xfcefa3f8, 0x676f02d9, 0x8d2a4c8a,
   0xfffa3942, 0x8771f681, 0x6d9d6122, 0xfde5380c,
   0xa4beea44, 0x4bdecfa9, 0xf6bb4b60, 0xbebfbc70,
   0x289b7ec6, 0xeaa127fa, 0xd4ef3085, 0x04881d05,
   0xd9d4d039, 0xe6db99e5, 0x1fa27cf8, 0xc4ac5665,
   0xf4292244, 0x432aff97, 0xab9423a7, 0xfc93a039,
   0x655b59c3, 0x8f0ccc92, 0xffeff47d, 0x85845dd1,
   0x6fa87e4f, 0xfe2ce6e0, 0xa3014314, 0x4e0811a1,
   0xf7537e82, 0xbd3af235, 0x2ad7d2bb, 0xeb86d391]

/-- Per-round left-rotation amounts (RFC 1321). -/
def md5S : List Nat :=
  [7, 12, 17, 22, 7, 12, 17, 22, 7, 12, 17, 22, 7, 12, 17, 22,
   5, 9, 14, 20, 5, 9, 14, 20, 5, 9, 14, 20, 5, 9, 14, 20,
   4, 11, 16, 23, 4, 11, 16, 23, 4, 11, 16, 23, 4, 11, 16, 23,
   6, 10, 15, 21, 6, 10, 15, 21, 6, 10, 15, 21, 6, 10, 15, 21]

/-- 32-bit left rotation on `Nat` (arguments below `2 ^ 32`). -/
def rotl32 (x c : Nat) : Nat :=
  ((x <<< c) + (x >>> (32 - c))) % 4294967296

/-- Bitwise complement within 32 bits. -/
def bnot32 (x : Nat) : Nat :=
  x ^^^ 4294967295

/-- One MD5 round: `M` gives the 16 message words of the current chunk. -/
def md5Round (M : Nat → Nat) (i : Nat) (st : Nat × Nat × Nat × Nat) :
    Nat × Nat × Nat × Nat :=
  let (A, B, C, D) := st
  let Fg : Nat × Nat :=
    if i < 16 then ((B &&& C) ||| (bnot32 B &&& D), i)
    else if i < 32 then ((D &&& B) ||| (bnot32 D &&& C), (5 * i + 1) % 16)
    else if i < 48 then (B ^^^ C ^^^ D, (3 * i + 5) % 16)
    else (C ^^^ (B ||| bnot32 D), (7 * i) % 16)
  let F := (Fg.1 + A + md5K.getD i 0 + M Fg.2) % 4294967296
  (D, (B + rotl32 F (md5S.getD i 0)) % 4294967296, B, C)

/-- Little-endian 32-bit word `j` of a 64-byte chunk. -/
def chunkWord (chunk : List Nat) (j : Nat) : Nat :=
  chunk.getD (4 * j) 0 + 256 * chunk.getD (4 * j + 1) 0 +
    65536 * chunk.getD (4 * j + 2) 0 + 16777216 * chunk.getD (4 * j + 3) 0

/-- Process one 64-byte chunk: 64 rounds, then add into the running state. -/
def md5ProcessChunk (h : Nat × Nat × Nat × Nat) (chunk : List Nat) :
    Nat × Nat × Nat × Nat :=
  let (A, B, C, D) :=
    (List.range 64).foldl (fun st i => md5Round (chunkWord chunk) i st) h
  ((h.1 + A) % 4294967296, (h.2.1 + B) % 4294967296,
   (h.2.2.1 + C) % 4294967296, (h.2.2.2 + D) % 4294967296)

/-- MD5 padding: `0x80`, zeros to 56 mod 64, then the 64-bit bit length LE. -/
def md5Pad (msg : List Nat) : List Nat :=
  let bitLen := (8 * msg.length) % 18446744073709551616
  let padLen := (119 - msg.length % 64) % 64
  msg ++ 0x80 :: List.replicate padLen 0 ++
    (List.range 8).map (fun k => (bitLen >>> (8 * k)) % 256)

/-- Split a byte list into 64-byte chunks. -/
def chunks64 : List Nat → List (List Nat)
  | [] => []
  | b :: rest => (b :: rest).take 64 :: chunks64 ((b :: rest).drop 64)
  termination_by l => l.length
  decreasing_by simp [List.length_drop]; omega

/-- Little-endian bytes of a 32-bit word. -/
def wordLE (x : Nat) : List Nat :=
  [x % 256, (x >>> 8) % 256, (x >>> 16) % 256, (x >>> 24) % 256]

/-- MD5 digest (16 bytes) of a byte sequence. -/
def md5Digest (msg : List Nat) : List Nat :=
  let st := (chunks64 (md5Pad msg)).foldl md5ProcessChunk
    (0x67452301, 0xefcdab89, 0x98badcfe, 0x10325476)
  wordLE st.1 ++ wordLE st.2.1 ++ wordLE st.2.2.1 ++ wordLE st.2.2.2

/-- Lowercase hexadecimal digit. -/
def hexDigit (n : Nat) : Char :=
  if n < 10 then Char.ofNat (48 + n) else Char.ofNat (87 + n)

/-- Two-digit lowercase hex rendering of a byte. -/
def hexByte (b : Nat) : List Char :=
  [hexDigit (b / 16), hexDigit (b % 16)]

/-- `hashlib.md5(msg).hexdigest()`: 32 lowercase hex characters. -/
def md5hexdigest (msg : List Nat) : String :=
  String.mk ((md5Digest msg).map hexByte).flatten

/-! ## Request/response shapes (`pydantic` models and Jira objects)

Optional attributes of duck-typed Jira objects are modelled as `Option`
fields: `none` means the attribute is absent (so `hasattr` is false), and
`Option.isSome` models `hasattr`. -/

/-- Body of `/authenticate` and `/fetch-stories` (`IssueFetchRequest`). -/
structure IssueFetchRequest where
  domain : String
  email : String
  jira_id : String
  jira_token : String
deriving DecidableEq, Repr

/-- Body of `/generate-test-cases` (`TestCaseRequest`);
`acceptance_criteria: Optional[str] = None`. -/
structure TestCaseRequest where
  user_story : String
  jira_id : String
  acceptance_criteria : Option String
deriving DecidableEq, Repr

/-- One element of the response of `/fetch-stories` (`StoryItem`). -/
structure StoryItem where
  key : String
  summary : String
  description : Option String
  priority : Option String
  status : Option String
  assignee : Option String
  due_date : Option String
  epic_link : Option String
  tags : List String
deriving DecidableEq, Repr

/-- Response of `/fetch-stories` (`IssueFetchResponse`). -/
structure IssueFetchResponse where
  epic_key : String
  epic_summary : String
  epic_description : Option String
  stories : List StoryItem
deriving DecidableEq, Repr

/-- A raised FastAPI `HTTPException(status_code=..., detail=...)`. -/
structure HTTPException where
  status_code : Nat
  detail : String
deriving DecidableEq, Repr

/-- A Python exception coming out of a collaborator call: either a
`JIRAError` (with its optional `status_code` and its `str(e)` text) or any
other `Exception` (with its `str(e)` text). -/
inductive PyErr where
  | jiraError (status_code : Option Nat) (msg : String)
  | exc (msg : String)
deriving DecidableEq, Repr

/-- `str(e)` of an exception. -/
def pyMsg : PyErr → String
  | .jiraError _ m => m
  | .exc m => m

/-- A Jira `status` object; the tracker always populates its `name`. -/
structure PyStatusObj where
  name : String
deriving DecidableEq, Repr

/-- A Jira `priority` object; `name` is `none` when the attribute is
absent (`hasattr(priority, "name")` false). -/
structure PyPriorityObj where
  name : Option String
deriving DecidableEq, Repr

/-- A Jira `assignee` object. -/
structure PyAssigneeObj where
  displayName : String
deriving DecidableEq, Repr

/-- The duck-typed `story.fields` object. `labels`, `name` and `duedate`
are `none` when the attribute is absent; `assignee` and `priority` are
`none` when the attribute holds Python `None`. -/
structure PyFields where
  labels : Option (List String)
  assignee : Option PyAssigneeObj
  priority : Option PyPriorityObj
  status : PyStatusObj
  name : Option String
  duedate : Option String
  summary : String
  description : Option String
deriving DecidableEq, Repr

/-- A story issue returned by `search_issues`. -/
structure PyStory where
  key : String
  fields : PyFields
deriving DecidableEq, Repr

/-- Fields of the epic issue returned by `jira.issue`. -/
structure PyEpicFields where
  summary : String
  description : Option String
deriving DecidableEq, Repr

/-- The epic issue returned by `jira.issue`. -/
structure PyEpic where
  key : String
  fields : PyEpicFields
deriving DecidableEq, Repr

/-! ## External collaborators as oracles

`JiraService.connect` is the `JIRA(server=..., basic_auth=(email, token))`
constructor, producing an opaque client handle (a `Nat`); `myself` is
`jira.myself().get("displayName")`; `issue` and `search_issues` are the
corresponding client methods (`search_issues` takes the JQL string and
`maxResults`).  Each returns `Except PyErr _`: `.error` models a raised
exception. -/

structure JiraService where
  connect : String → String → String → Except PyErr Nat
  myself : Nat → Except PyErr (Option String)
  issue : Nat → String → Except PyErr PyEpic
  search_issues : Nat → String → Nat → Except PyErr (List PyStory)

/-- The generative-language collaborator: `format` is
`test_case_prompt.format(user_story=..., jira_id=..., acceptance_criteria=...)`
(the template lives in `scripts/llm.py`, outside the core), `invoke` is
`llm_model.invoke(prompt).content`. -/
structure GenService where
  format : String → String → String → String
  invoke : String → Except PyErr String

/-- Response of `/authenticate` on success. -/
structure AuthResponse where
  status : String
  username : Option String
deriving DecidableEq, Repr

/-- Value cached and returned by `/generate-test-cases`. -/
structure GenResult where
  content : String
  token_count : Nat
deriving DecidableEq, Repr

/-! ## The two caches' key derivations -/

/-- `f"{request.domain}:{request.email}"` (lines 81 and 103). -/
def session_cache_key (domain email : String) : String :=
  domain ++ ":" ++ email

/-- `combined = f"{user_story}|{jira_id}|{acceptance_criteria}"` (line 175). -/
def combined (user_story jira_id acceptance_criteria : String) : String :=
  user_story ++ "|" ++ jira_id ++ "|" ++ acceptance_criteria

/-- `create_cache_key` (lines 174-176):
`hashlib.md5(combined.encode()).hexdigest()`. -/
def create_cache_key (user_story jira_id acceptance_criteria : String) : String :=
  md5hexdigest (strBytes (combined user_story jira_id acceptance_criteria))

/-! ## Exception translation shared by the two Jira endpoints

`authenticate_jira` and `fetch_epic_stories` carry textually identical
`except` blocks (lines 85-96 and 160-171): a `JIRAError` with
`status_code == 401` becomes HTTP 401 with a fixed message, any other
`JIRAError` becomes HTTP `e.status_code or 500` with `"JIRA Error: "`,
and any other exception becomes HTTP 500 with the handler's own
message ("Error connecting with JIRA: ..."). -/

def jiraHTTPError (fallbackMsg : String) : PyErr → HTTPException
  | .jiraError status_code msg =>
      if status_code = some 401 then
        { status_code := 401, detail := "Authentication failed: Invalid credentials" }
      else
        { status_code := pyOrNat status_code 500, detail := "JIRA Error: " ++ msg }
  | .exc msg => { status_code := 500, detail := fallbackMsg ++ msg }

/-! ## `/authenticate` (lines 71-96) -/

/-- `authenticate_jira`: connect, verify via `myself()`, then store the
client under `domain:email` and answer; exceptions become
`HTTPException`s and leave the cache untouched. -/
def authenticate_jira (svc : JiraService) (cached_dict : List (String × Nat))
    (request : IssueFetchRequest) :
    List (String × Nat) × Except HTTPException AuthResponse :=
  match svc.connect request.domain request.email request.jira_token with
  | .error e => (cached_dict, .error (jiraHTTPError "Error connecting with JIRA: " e))
  | .ok jira =>
    match svc.myself jira with
    | .error e => (cached_dict, .error (jiraHTTPError "Error connecting with JIRA: " e))
    | .ok user =>
        let cache_key := session_cache_key request.domain request.email
        (dictSet cached_dict cache_key jira,
         .ok { status := "authenticated", username := user })

/-! ## `/fetch-stories` (lines 99-171) -/

/-- The JQL query string built at lines 114-116. -/
def jql_query (jira_id : String) : String :=
  "\"Epic Link\" = " ++ jira_id ++ " AND issuetype = Story ORDER BY key ASC"

/-- Per-story field extraction (lines 120-152); the `status` guard tests
`hasattr(story.fields, "name")`, not the status object. -/
def storyToItem (epicId : String) (story : PyStory) : StoryItem :=
  let tags := (story.fields.labels).getD []
  let assignee := story.fields.assignee.map PyAssigneeObj.displayName
  let priority :=
    match story.fields.priority with
    | some p => p.name
    | none => none
  let status :=
    if (story.fields.name).isSome then some story.fields.status.name else none
  { key := story.key
    summary := story.fields.summary
    description := story.fields.description
    priority := priority
    status := status
    assignee := assignee
    due_date := story.fields.duedate
    epic_link := some epicId
    tags := tags }

/-- Lines 112-159: fetch the epic and its stories with an already
obtained client and shape the response.  `cached` is the session cache as
it stands when these lines run; `conns` counts `JIRA(...)` constructor
calls made earlier in the request. -/
def fetchWithClient (svc : JiraService) (cached : List (String × Nat))
    (jira_id : String) (jira : Nat) (conns : Nat) :
    List (String × Nat) × Except HTTPException IssueFetchResponse × Nat :=
  match svc.issue jira jira_id with
  | .error e =>
      (cached, .error (jiraHTTPError "Error connecting with JIRA: " e), conns)
  | .ok epic =>
    match svc.search_issues jira (jql_query jira_id) 100 with
    | .error e =>
        (cached, .error (jiraHTTPError "Error connecting with JIRA: " e), conns)
    | .ok stories =>
        (cached,
         .ok { epic_key := epic.key
               epic_summary := epic.fields.summary
               epic_description := epic.fields.description
               stories := stories.map (storyToItem jira_id) },
         conns)

/-- `fetch_epic_stories`: reuse the cached client for `domain:email` if
present; otherwise construct one and store it at once (line 110) — before
`jira.issue` runs.  The third component counts `JIRA(...)` constructor
calls (0 on a session-cache hit, 1 on a miss). -/
def fetch_epic_stories (svc : JiraService) (cached_dict : List (String × Nat))
    (request : IssueFetchRequest) :
    List (String × Nat) × Except HTTPException IssueFetchResponse × Nat :=
  let cache_key := session_cache_key request.domain request.email
  match dictGet cached_dict cache_key with
  | some jira => fetchWithClient svc cached_dict request.jira_id jira 0
  | none =>
    match svc.connect request.domain request.email request.jira_token with
    | .error e =>
        (cached_dict, .error (jiraHTTPError "Error connecting with JIRA: " e), 1)
    | .ok jira =>
        fetchWithClient svc (dictSet cached_dict cache_key jira) request.jira_id jira 1

/-! ## `/generate-test-cases` (lines 179-213) -/

/-- `generate_test_cases`: look up the fingerprint of
`(user_story, jira_id, acceptance_criteria or "")`; on a hit return the
cached record, on a miss invoke the generator, count whitespace tokens of
the content, store and return; any exception becomes HTTP 500 with
"Error generating test cases: ".  The third component counts
`llm_model.invoke` calls. -/
def generate_test_cases (svc : GenService) (test_case_cache : List (String × GenResult))
    (request : TestCaseRequest) :
    List (String × GenResult) × Except HTTPException GenResult × Nat :=
  let cache_key := create_cache_key request.user_story request.jira_id
    (pyStrOr request.acceptance_criteria "")
  match dictGet test_case_cache cache_key with
  | some r => (test_case_cache, .ok r, 0)
  | none =>
    let formatted_prompt := svc.format request.user_story request.jira_id
      (pyStrOr request.acceptance_criteria "")
    match svc.invoke formatted_prompt with
    | .error e =>
        (test_case_cache,
         .error { status_code := 500, detail := "Error generating test cases: " ++ pyMsg e },
         1)
    | .ok content =>
        let token_count := (pySplit content).length
        let result : GenResult := { content := content, token_count := token_count }
        (dictSet test_case_cache cache_key result, .ok result, 1)

/-! ## Concrete collaborator stubs used by witnesses and counterexamples -/

/-- A tracker whose client constructs fine but whose issue lookup fails. -/
def failIssueSvc : JiraService :=
  { connect := fun _ _ _ => .ok 7
    myself := fun _ => .ok none
    issue := fun _ _ => .error (.jiraError (some 404) "issue missing")
    search_issues := fun _ _ _ => .ok [] }

/-- A tracker whose client constructs and finds the epic, but whose story
search fails. -/
def failSearchSvc : JiraService :=
  { connect := fun _ _ _ => .ok 7
    myself := fun _ => .ok none
    issue := fun _ _ => .ok ⟨"EPIC-1", ⟨"Epic summary", none⟩⟩
    search_issues := fun _ _ _ => .error (.jiraError (some 502) "bad gateway") }

/-- A tracker that rejects the credentials at the constructor. -/
def badTokenSvc : JiraService :=
  { connect := fun _ _ _ => .error (.jiraError (some 401) "401 Unauthorized")
    myself := fun _ => .ok none
    issue := fun _ _ => .error (.jiraError (some 401) "401 Unauthorized")
    search_issues := fun _ _ _ => .error (.jiraError (some 401) "401 Unauthorized") }

/-- A tracker that is unreachable: the constructor raises a plain exception. -/
def downSvc : JiraService :=
  { connect := fun _ _ _ => .error (.exc "boom")
    myself := fun _ => .error (.exc "boom")
    issue := fun _ _ => .error (.exc "boom")
    search_issues := fun _ _ _ => .error (.exc "boom") }

/-- A generator stub answering a fixed two-token completion. -/
def stubGen : GenService :=
  { format := fun u j a => u ++ "/" ++ j ++ "/" ++ a
    invoke := fun _ => .ok "tc one" }

/-- A generator stub whose invocation raises. -/
def failGen : GenService :=
  { format := fun u j a => u ++ "/" ++ j ++ "/" ++ a
    invoke := fun _ => .error (.exc "llm down") }

/-- Fields of a sample story: `story.fields` has no `name` attribute while
`story.fields.status.name` is `"Done"`. -/
def sampleFields : PyFields :=
  { labels := some ["ui"]
    assignee := some ⟨"Ann"⟩
    priority := some ⟨some "High"⟩
    status := ⟨"Done"⟩
    name := none
    duedate := some "2024-01-01"
    summary := "story one"
    description := none }

/-- A sample story built on `sampleFields`. -/
def sampleStory : PyStory := ⟨"PROJ-2", sampleFields⟩

/-- A healthy tracker returning one epic and one story. -/
def sampleSvc : JiraService :=
  { connect := fun _ _ _ => .ok 3
    myself := fun _ => .ok (some "Ann")
    issue := fun _ _ => .ok ⟨"PROJ-10", ⟨"Epic summary", none⟩⟩
    search_issues := fun _ _ _ => .ok [sampleStory] }

/-- Every record in the response cache counts the whitespace-delimited
tokens of its own content. -/
def tokenInvariant (cache : List (String × GenResult)) : Prop :=
  ∀ p ∈ cache, p.2.token_count = (pySplit p.2.content).length

/-! ## Key-derivation injectivity lemmas -/

theorem string_data_inj {a b : String} (h : a.data = b.data) : a = b :=
  congrArg String.mk h

theorem combined_field1_inj {d i c d' : String}
    (h : combined d i c = combined d' i c) : d = d' := by
  have hd : (d ++ "|" ++ i ++ "|" ++ c).data = (d' ++ "|" ++ i ++ "|" ++ c).data :=
    congrArg String.data h
  simp only [String.data_append] at hd
  exact string_data_inj (List.append_cancel_right (List.append_cancel_right
    (List.append_cancel_right (List.append_cancel_right hd))))

theorem combined_field2_inj {d i c i' : String}
    (h : combined d i c = combined d i' c) : i = i' := by
  have hd : (d ++ "|" ++ i ++ "|" ++ c).data = (d ++ "|" ++ i' ++ "|" ++ c).data :=
    congrArg String.data h
  simp only [String.data_append] at hd
  exact string_data_inj (List.append_cancel_left (List.append_cancel_right
    (List.append_cancel_right hd)))

theorem combined_field3_inj {d i c c' : String}
    (h : combined d i c = combined d i c') : c = c' := by
  have hd : (d ++ "|" ++ i ++ "|" ++ c).data = (d ++ "|" ++ i ++ "|" ++ c').data :=
    congrArg String.data h
  simp only [String.data_append] at hd
  exact string_data_inj (List.append_cancel_left hd)

theorem session_cache_key_email_inj {d e e' : String}
    (h : session_cache_key d e = session_cache_key d e') : e = e' := by
  have hd : (d ++ ":" ++ e).data = (d ++ ":" ++ e').data := congrArg String.data h
  simp only [String.data_append] at hd
  exact string_data_inj (List.append_cancel_left hd)

theorem session_cache_key_domain_inj {d e d' : String}
    (h : session_cache_key d e = session_cache_key d' e) : d = d' := by
  have hd : (d ++ ":" ++ e).data = (d' ++ ":" ++ e).data := congrArg String.data h
  simp only [String.data_append] at hd
  exact string_data_inj (List.append_cancel_right (List.append_cancel_right hd))

/-- The connection counter threaded through `fetchWithClient` is returned
unchanged on every control path. -/
theorem fetchWithClient_conns (svc : JiraService) (cached : List (String × Nat))
    (jid : String) (jira n : Nat) :
    (fetchWithClient svc cached jid jira n).2.2 = n := by
  unfold fetchWithClient
  cases svc.issue jira jid with
  | error e => rfl
  | ok epic =>
      cases svc.search_issues jira (jql_query jid) 100 with
      | error e => rfl
      | ok ss => rfl

/-! ## Case analyses of `/generate-test-cases` -/

theorem generate_hit {svc : GenService} {cache : List (String × GenResult)}
    {request : TestCaseRequest} {r : GenResult}
    (hg : dictGet cache (create_cache_key request.user_story request.jira_id
      (pyStrOr request.acceptance_criteria "")) = some r) :
    generate_test_cases svc cache request = (cache, .ok r, 0) := by
  simp [generate_test_cases, hg]

theorem generate_miss_fail {svc : GenService} {cache : List (String × GenResult)}
    {request : TestCaseRequest} {e : PyErr}
    (hg : dictGet cache (create_cache_key request.user_story request.jira_id
      (pyStrOr request.acceptance_criteria "")) = none)
    (hi : svc.invoke (svc.format request.user_story request.jira_id
      (pyStrOr request.acceptance_criteria "")) = .error e) :
    generate_test_cases svc cache request =
      (cache,
       .error { status_code := 500, detail := "Error generating test cases: " ++ pyMsg e },
       1) := by
  simp [generate_test_cases, hg, hi]

theorem generate_miss_ok {svc : GenService} {cache : List (String × GenResult)}
    {request : TestCaseRequest} {content : String}
    (hg : dictGet cache (create_cache_key request.user_story request.jira_id
      (pyStrOr request.acceptance_criteria "")) = none)
    (hi : svc.invoke (svc.format request.user_story request.jira_id
      (pyStrOr request.acceptance_criteria "")) = .ok content) :
    generate_test_cases svc cache request =
      (dictSet cache (create_cache_key request.user_story request.jira_id
         (pyStrOr request.acceptance_criteria ""))
         { content := content, token_count := (pySplit content).length },
       .ok { content := content, token_count := (pySplit content).length },
       1) := by
  simp [generate_test_cases, hg, hi]

/-! ## Claim theorems -/

/-- C1: the response-cache fingerprint is pure and deterministic — computing
`create_cache_key` twice with identical arguments yields identical keys — and
two triples that differ in exactly one field always feed distinct strings to
the MD5 hash, so their keys coincide only if MD5 collides on distinct inputs
(ruled out with overwhelming probability by collision resistance). -/
theorem C1_fingerprint_deterministic_and_separating
    (d i c d' i' c' : String)
    (h : (d ≠ d' ∧ i = i' ∧ c = c') ∨ (d = d' ∧ i ≠ i' ∧ c = c') ∨
         (d = d' ∧ i = i' ∧ c ≠ c')) :
    create_cache_key d i c = create_cache_key d i c ∧
      combined d i c ≠ combined d' i' c' := by
  refine ⟨rfl, ?_⟩
  rcases h with ⟨hne, rfl, rfl⟩ | ⟨rfl, hne, rfl⟩ | ⟨rfl, rfl, hne⟩
  · exact fun hc => hne (combined_field1_inj hc)
  · exact fun hc => hne (combined_field2_inj hc)
  · exact fun hc => hne (combined_field3_inj hc)

/-- Witness for C1 at the triples ("s", "j", "a") and ("s", "j", "b"). -/
theorem C1_fingerprint_witness :
    (("s" : String) = "s" ∧ ("j" : String) = "j" ∧ ("a" : String) ≠ "b") ∧
      (create_cache_key "s" "j" "a" = create_cache_key "s" "j" "a" ∧
        combined "s" "j" "a" ≠ combined "s" "j" "b") :=
  ⟨⟨rfl, rfl, by decide⟩,
   C1_fingerprint_deterministic_and_separating "s" "j" "a" "s" "j" "b"
     (Or.inr (Or.inr ⟨rfl, rfl, by decide⟩))⟩

/-- C2 is false as stated: the session key is bare concatenation with ":",
so the distinct pairs ("a", "b:c") and ("a:b", "c") both derive the key
"a:b:c" — one request would reuse the handle stored for the other. -/
theorem C2_session_key_counterexample :
    session_cache_key "a" "b:c" = session_cache_key "a:b" "c" ∧
      ¬ (("a" : String) = "a:b" ∧ ("b:c" : String) = "c") :=
  ⟨rfl, by decide⟩

/-- C2 (amended): pairs that differ in exactly one of endpoint or principal
never derive the same session key; pairs that differ in both components can
alias when the components contain ":". -/
theorem C2_no_alias_on_single_component_change
    (d e d' e' : String)
    (h : (d = d' ∧ e ≠ e') ∨ (d ≠ d' ∧ e = e')) :
    session_cache_key d e ≠ session_cache_key d' e' := by
  rcases h with ⟨rfl, hne⟩ | ⟨hne, rfl⟩
  · exact fun hk => hne (session_cache_key_email_inj hk)
  · exact fun hk => hne (session_cache_key_domain_inj hk)

/-- Witness for the amended C2 at ("x", "a") versus ("x", "b"). -/
theorem C2_no_alias_witness :
    (("x" : String) = "x" ∧ ("a" : String) ≠ "b") ∧
      session_cache_key "x" "a" ≠ session_cache_key "x" "b" :=
  ⟨⟨rfl, by decide⟩,
   C2_no_alias_on_single_component_change "x" "a" "x" "b" (Or.inl ⟨rfl, by decide⟩)⟩

/-- C8: a request with `acceptance_criteria` absent derives the same
fingerprint as one carrying the empty string (`request.acceptance_criteria
or ""` collapses both to `""`), and `/generate-test-cases` behaves
identically on the two requests — same cache entry, same answer. -/
theorem C8_absent_criteria_same_fingerprint
    (svc : GenService) (cache : List (String × GenResult)) (d i : String) :
    create_cache_key d i (pyStrOr none "") =
        create_cache_key d i (pyStrOr (some "") "") ∧
      generate_test_cases svc cache ⟨d, i, none⟩ =
        generate_test_cases svc cache ⟨d, i, some ""⟩ :=
  ⟨rfl, rfl⟩

/-- C3 is false as stated for `/fetch-stories`: on a session-cache miss the
freshly constructed client is stored (line 110) before the epic is fetched,
so when the subsequent issue lookup fails the error is propagated but the
session cache has gained an entry — here it grows from `[]` to
`[("d:e", 7)]`. -/
theorem C3_miss_failure_counterexample :
    dictGet ([] : List (String × Nat)) (session_cache_key "d" "e") = none ∧
      fetch_epic_stories failIssueSvc [] ⟨"d", "e", "EPIC-1", "t"⟩ =
        ([("d:e", 7)],
         .error { status_code := 404, detail := "JIRA Error: issue missing" }, 1) ∧
      ([("d:e", 7)] : List (String × Nat)) ≠ [] :=
  ⟨rfl, rfl, by decide⟩

/-- C3 (amended): a cache miss followed by a collaborator failure — at the
generator, at client construction, at the epic lookup, or at the story
search — always propagates the failure; the response cache is left
unmodified, and the session cache is left unmodified when the failure is
the client construction itself — but when construction succeeds and the
subsequent issue lookup or story search fails, `/fetch-stories` has
already stored the new handle. -/
theorem C3_miss_failure_propagation
    (gsvc : GenService) (gcache : List (String × GenResult)) (treq : TestCaseRequest)
    (jsvc : JiraService) (jcache : List (String × Nat)) (jreq : IssueFetchRequest)
    (ge je : PyErr) (cl : Nat) (epic : PyEpic)
    (hgmiss : dictGet gcache (create_cache_key treq.user_story treq.jira_id
      (pyStrOr treq.acceptance_criteria "")) = none)
    (hjmiss : dictGet jcache (session_cache_key jreq.domain jreq.email) = none) :
    (gsvc.invoke (gsvc.format treq.user_story treq.jira_id
        (pyStrOr treq.acceptance_criteria "")) = .error ge →
      generate_test_cases gsvc gcache treq =
        (gcache,
         .error { status_code := 500, detail := "Error generating test cases: " ++ pyMsg ge },
         1)) ∧
    (jsvc.connect jreq.domain jreq.email jreq.jira_token = .error je →
      fetch_epic_stories jsvc jcache jreq =
        (jcache, .error (jiraHTTPError "Error connecting with JIRA: " je), 1)) ∧
    (jsvc.connect jreq.domain jreq.email jreq.jira_token = .ok cl →
      jsvc.issue cl jreq.jira_id = .error je →
      fetch_epic_stories jsvc jcache jreq =
        (dictSet jcache (session_cache_key jreq.domain jreq.email) cl,
         .error (jiraHTTPError "Error connecting with JIRA: " je), 1)) ∧
    (jsvc.connect jreq.domain jreq.email jreq.jira_token = .ok cl →
      jsvc.issue cl jreq.jira_id = .ok epic →
      jsvc.search_issues cl (jql_query jreq.jira_id) 100 = .error je →
      fetch_epic_stories jsvc jcache jreq =
        (dictSet jcache (session_cache_key jreq.domain jreq.email) cl,
         .error (jiraHTTPError "Error connecting with JIRA: " je), 1)) := by
  refine ⟨?_, ?_, ?_, ?_⟩
  · intro hfail
    simp [generate_test_cases, hgmiss, hfail]
  · intro hfail
    simp [fetch_epic_stories, hjmiss, hfail]
  · intro hconn hfail
    simp [fetch_epic_stories, fetchWithClient, hjmiss, hconn, hfail]
  · intro hconn hissue hfail
    simp [fetch_epic_stories, fetchWithClient, hjmiss, hconn, hissue, hfail]

/-- Witness for the amended C3 with empty caches, a failing generator and
the tracker stub whose story search fails after construction and the epic
lookup succeed. -/
theorem C3_miss_failure_witness :
    dictGet ([] : List (String × GenResult))
        (create_cache_key "u" "J-1" (pyStrOr none "")) = none ∧
      dictGet ([] : List (String × Nat)) (session_cache_key "d" "e") = none ∧
      ((failGen.invoke (failGen.format "u" "J-1" (pyStrOr none "")) =
          .error (.exc "llm down") →
        generate_test_cases failGen [] ⟨"u", "J-1", none⟩ =
          ([], .error { status_code := 500,
                        detail := "Error generating test cases: " ++ pyMsg (.exc "llm down") },
           1)) ∧
      (failSearchSvc.connect "d" "e" "t" = .error (.jiraError (some 502) "bad gateway") →
        fetch_epic_stories failSearchSvc [] ⟨"d", "e", "EPIC-1", "t"⟩ =
          ([], .error (jiraHTTPError "Error connecting with JIRA: "
                 (.jiraError (some 502) "bad gateway")), 1)) ∧
      (failSearchSvc.connect "d" "e" "t" = .ok 7 →
        failSearchSvc.issue 7 "EPIC-1" = .error (.jiraError (some 502) "bad gateway") →
        fetch_epic_stories failSearchSvc [] ⟨"d", "e", "EPIC-1", "t"⟩ =
          (dictSet [] (session_cache_key "d" "e") 7,
           .error (jiraHTTPError "Error connecting with JIRA: "
             (.jiraError (some 502) "bad gateway")), 1)) ∧
      (failSearchSvc.connect "d" "e" "t" = .ok 7 →
        failSearchSvc.issue 7 "EPIC-1" = .ok ⟨"EPIC-1", ⟨"Epic summary", none⟩⟩ →
        failSearchSvc.search_issues 7 (jql_query "EPIC-1") 100 =
          .error (.jiraError (some 502) "bad gateway") →
        fetch_epic_stories failSearchSvc [] ⟨"d", "e", "EPIC-1", "t"⟩ =
          (dictSet [] (session_cache_key "d" "e") 7,
           .error (jiraHTTPError "Error connecting with JIRA: "
             (.jiraError (some 502) "bad gateway")), 1))) :=
  ⟨rfl, rfl,
   C3_miss_failure_propagation failGen [] ⟨"u", "J-1", none⟩ failSearchSvc []
     ⟨"d", "e", "EPIC-1", "t"⟩ (.exc "llm down") (.jiraError (some 502) "bad gateway") 7
     ⟨"EPIC-1", ⟨"Epic summary", none⟩⟩ rfl rfl⟩

/-- C4: when the tracker rejects the credentials with a 401 `JIRAError`
(at construction or at the `myself()` probe), `/authenticate` answers the
fixed unauthorized `HTTPException`, the session cache is returned
untouched, and a key that was absent stays absent. -/
theorem C4_unauthorized_stores_nothing
    (svc : JiraService) (cached_dict : List (String × Nat))
    (request : IssueFetchRequest) (m : String)
    (h : svc.connect request.domain request.email request.jira_token =
           .error (.jiraError (some 401) m) ∨
         ∃ cl, svc.connect request.domain request.email request.jira_token = .ok cl ∧
               svc.myself cl = .error (.jiraError (some 401) m)) :
    authenticate_jira svc cached_dict request =
      (cached_dict,
       .error { status_code := 401, detail := "Authentication failed: Invalid credentials" }) ∧
    (dictGet cached_dict (session_cache_key request.domain request.email) = none →
      dictGet (authenticate_jira svc cached_dict request).1
        (session_cache_key request.domain request.email) = none) := by
  have hmain : authenticate_jira svc cached_dict request =
      (cached_dict,
       .error { status_code := 401, detail := "Authentication failed: Invalid credentials" }) := by
    rcases h with hconn | ⟨cl, hconn, hself⟩
    · simp [authenticate_jira, hconn, jiraHTTPError]
    · simp [authenticate_jira, hconn, hself, jiraHTTPError]
  exact ⟨hmain, fun habs => by rw [hmain]; exact habs⟩

/-- Witness for C4: the bad-token stub against an empty cache. -/
theorem C4_unauthorized_witness :
    (badTokenSvc.connect "https://x.atlassian.net" "a@b.com" "badtoken" =
        .error (.jiraError (some 401) "401 Unauthorized") ∨
      ∃ cl, badTokenSvc.connect "https://x.atlassian.net" "a@b.com" "badtoken" = .ok cl ∧
            badTokenSvc.myself cl = .error (.jiraError (some 401) "401 Unauthorized")) ∧
    (authenticate_jira badTokenSvc []
        ⟨"https://x.atlassian.net", "a@b.com", "PROJ-1", "badtoken"⟩ =
      ([], .error { status_code := 401, detail := "Authentication failed: Invalid credentials" }) ∧
    (dictGet ([] : List (String × Nat))
        (session_cache_key "https://x.atlassian.net" "a@b.com") = none →
      dictGet (authenticate_jira badTokenSvc []
          ⟨"https://x.atlassian.net", "a@b.com", "PROJ-1", "badtoken"⟩).1
        (session_cache_key "https://x.atlassian.net" "a@b.com") = none)) :=
  ⟨Or.inl rfl,
   C4_unauthorized_stores_nothing badTokenSvc []
     ⟨"https://x.atlassian.net", "a@b.com", "PROJ-1", "badtoken"⟩ "401 Unauthorized"
     (Or.inl rfl)⟩

/-- C5: on a response-cache miss with a succeeding generator, the first
`/generate-test-cases` call stores and returns the freshly built record and
invokes the generator once; repeating the identical request then returns
the cached record unchanged with zero further generator invocations. -/
theorem C5_generate_dedup
    (svc : GenService) (cache : List (String × GenResult))
    (request : TestCaseRequest) (content : String)
    (hmiss : dictGet cache (create_cache_key request.user_story request.jira_id
      (pyStrOr request.acceptance_criteria "")) = none)
    (hok : svc.invoke (svc.format request.user_story request.jira_id
      (pyStrOr request.acceptance_criteria "")) = .ok content) :
    generate_test_cases svc cache request =
      (dictSet cache (create_cache_key request.user_story request.jira_id
         (pyStrOr request.acceptance_criteria ""))
         { content := content, token_count := (pySplit content).length },
       .ok { content := content, token_count := (pySplit content).length },
       1) ∧
    generate_test_cases svc (generate_test_cases svc cache request).1 request =
      ((generate_test_cases svc cache request).1,
       .ok { content := content, token_count := (pySplit content).length },
       0) := by
  have h1 := @generate_miss_ok svc cache request content hmiss hok
  refine ⟨h1, ?_⟩
  rw [h1]
  exact generate_hit (dictGet_dictSet_self _ _ _)

/-- Witness for C5: the two-token generator stub on an empty cache. -/
theorem C5_generate_dedup_witness :
    dictGet ([] : List (String × GenResult))
        (create_cache_key "As a user..." "PROJ-1" (pyStrOr (some "") "")) = none ∧
      stubGen.invoke (stubGen.format "As a user..." "PROJ-1" (pyStrOr (some "") "")) =
        .ok "tc one" ∧
      (generate_test_cases stubGen [] ⟨"As a user...", "PROJ-1", some ""⟩ =
        (dictSet [] (create_cache_key "As a user..." "PROJ-1" (pyStrOr (some "") ""))
           { content := "tc one", token_count := (pySplit "tc one").length },
         .ok { content := "tc one", token_count := (pySplit "tc one").length },
         1) ∧
      generate_test_cases stubGen
          (generate_test_cases stubGen [] ⟨"As a user...", "PROJ-1", some ""⟩).1
          ⟨"As a user...", "PROJ-1", some ""⟩ =
        ((generate_test_cases stubGen [] ⟨"As a user...", "PROJ-1", some ""⟩).1,
         .ok { content := "tc one", token_count := (pySplit "tc one").length },
         0)) :=
  ⟨rfl, rfl,
   C5_generate_dedup stubGen [] ⟨"As a user...", "PROJ-1", some ""⟩ "tc one" rfl rfl⟩

/-- C6: every record `/generate-test-cases` returns or leaves stored has
`token_count` equal to the number of whitespace-delimited tokens of its
`content` (an invariant preserved from any cache satisfying it). -/
theorem C6_token_count_counts_tokens
    (svc : GenService) (cache : List (String × GenResult)) (request : TestCaseRequest)
    (hinv : tokenInvariant cache) :
    (∀ r : GenResult, (generate_test_cases svc cache request).2.1 = .ok r →
        r.token_count = (pySplit r.content).length) ∧
      tokenInvariant (generate_test_cases svc cache request).1 := by
  rcases hg : dictGet cache (create_cache_key request.user_story request.jira_id
      (pyStrOr request.acceptance_criteria "")) with _ | r0
  · rcases hi : svc.invoke (svc.format request.user_story request.jira_id
        (pyStrOr request.acceptance_criteria "")) with e | content
    · rw [generate_miss_fail hg hi]
      exact ⟨fun r hr => by simp at hr, hinv⟩
    · rw [generate_miss_ok hg hi]
      refine ⟨fun r hr => ?_, fun p hp => ?_⟩
      · have hr' : ({ content := content, token_count := (pySplit content).length } :
            GenResult) = r := by simpa using hr
        rw [← hr']
      · rcases mem_dictSet hp with h' | h'
        · have h2 : p.2 =
              { content := content, token_count := (pySplit content).length } :=
            congrArg Prod.snd h'
          rw [h2]
        · exact hinv p h'
  · rw [generate_hit hg]
    refine ⟨fun r hr => ?_, hinv⟩
    have hr' : r0 = r := by simpa using hr
    rw [← hr']
    exact hinv _ (dictGet_mem hg)

/-- Witness for C6: the invariant holds for the empty cache and is carried
through a concrete call of the generator stub. -/
theorem C6_token_count_witness :
    tokenInvariant ([] : List (String × GenResult)) ∧
      ((∀ r : GenResult,
          (generate_test_cases stubGen [] ⟨"As a user...", "PROJ-1", none⟩).2.1 = .ok r →
          r.token_count = (pySplit r.content).length) ∧
        tokenInvariant (generate_test_cases stubGen [] ⟨"As a user...", "PROJ-1", none⟩).1) :=
  have hinv : tokenInvariant ([] : List (String × GenResult)) := by
    intro p hp; simp at hp
  ⟨hinv, C6_token_count_counts_tokens stubGen [] ⟨"As a user...", "PROJ-1", none⟩ hinv⟩

/-- C7: a `JIRAError` with status 401 is surfaced as the fixed unauthorized
response; any other `JIRAError` is surfaced with its upstream status code
when one (a nonzero code) is available and as 500 otherwise; a non-Jira
exception is surfaced as 500; and both Jira endpoints propagate a failing
constructor call through exactly this translation without touching the
cache. -/
theorem C7_error_taxonomy
    (svc : JiraService) (cached_dict : List (String × Nat))
    (request : IssueFetchRequest) (e : PyErr) (g m : String) (s : Nat)
    (hs401 : s ≠ 401) (hspos : 0 < s)
    (hconn : svc.connect request.domain request.email request.jira_token = .error e)
    (hmiss : dictGet cached_dict (session_cache_key request.domain request.email) = none) :
    jiraHTTPError g (.jiraError (some 401) m) =
        { status_code := 401, detail := "Authentication failed: Invalid credentials" } ∧
      jiraHTTPError g (.jiraError (some s) m) =
        { status_code := s, detail := "JIRA Error: " ++ m } ∧
      jiraHTTPError g (.jiraError none m) =
        { status_code := 500, detail := "JIRA Error: " ++ m } ∧
      jiraHTTPError g (.exc m) = { status_code := 500, detail := g ++ m } ∧
      authenticate_jira svc cached_dict request =
        (cached_dict, .error (jiraHTTPError "Error connecting with JIRA: " e)) ∧
      fetch_epic_stories svc cached_dict request =
        (cached_dict, .error (jiraHTTPError "Error connecting with JIRA: " e), 1) := by
  have hs0 : s ≠ 0 := Nat.pos_iff_ne_zero.mp hspos
  refine ⟨by simp [jiraHTTPError], ?_, by simp [jiraHTTPError, pyOrNat],
    by simp [jiraHTTPError], by simp [authenticate_jira, hconn],
    by simp [fetch_epic_stories, hmiss, hconn]⟩
  simp [jiraHTTPError, pyOrNat, hs401, hs0]

/-- Witness for C7 with status 404 and the unreachable-tracker stub. -/
theorem C7_error_taxonomy_witness :
    (404 : Nat) ≠ 401 ∧ (0 : Nat) < 404 ∧
      downSvc.connect "d" "e" "t" = .error (.exc "boom") ∧
      dictGet ([] : List (String × Nat)) (session_cache_key "d" "e") = none ∧
      (jiraHTTPError "g: " (.jiraError (some 401) "m") =
          { status_code := 401, detail := "Authentication failed: Invalid credentials" } ∧
        jiraHTTPError "g: " (.jiraError (some 404) "m") =
          { status_code := 404, detail := "JIRA Error: " ++ "m" } ∧
        jiraHTTPError "g: " (.jiraError none "m") =
          { status_code := 500, detail := "JIRA Error: " ++ "m" } ∧
        jiraHTTPError "g: " (.exc "m") = { status_code := 500, detail := "g: " ++ "m" } ∧
        authenticate_jira downSvc [] ⟨"d", "e", "EPIC-1", "t"⟩ =
          ([], .error (jiraHTTPError "Error connecting with JIRA: " (.exc "boom"))) ∧
        fetch_epic_stories downSvc [] ⟨"d", "e", "EPIC-1", "t"⟩ =
          ([], .error (jiraHTTPError "Error connecting with JIRA: " (.exc "boom")), 1)) :=
  ⟨by decide, by decide, rfl, rfl,
   C7_error_taxonomy downSvc [] ⟨"d", "e", "EPIC-1", "t"⟩ (.exc "boom") "g: " "m" 404
     (by decide) (by decide) rfl rfl⟩

/-- C9: in `/fetch-stories` the status guard inspects `story.fields` for a
`name` attribute, not the status object: on a successful fetch each
returned item's `status` is `story.fields.status.name` exactly when
`story.fields` has a `name` attribute, and `None` otherwise. -/
theorem C9_status_guard_checks_fields
    (svc : JiraService) (cached_dict : List (String × Nat))
    (request : IssueFetchRequest) (jira : Nat) (epic : PyEpic) (ss : List PyStory)
    (hhit : dictGet cached_dict (session_cache_key request.domain request.email) = some jira)
    (hissue : svc.issue jira request.jira_id = .ok epic)
    (hsearch : svc.search_issues jira (jql_query request.jira_id) 100 = .ok ss) :
    (fetch_epic_stories svc cached_dict request).2.1 =
        .ok { epic_key := epic.key
              epic_summary := epic.fields.summary
              epic_description := epic.fields.description
              stories := ss.map (storyToItem request.jira_id) } ∧
      ∀ story ∈ ss, (storyToItem request.jira_id story).status =
        if (story.fields.name).isSome then some story.fields.status.name else none := by
  refine ⟨?_, fun story _ => rfl⟩
  simp [fetch_epic_stories, fetchWithClient, hhit, hissue, hsearch]

/-- Witness for C9: the healthy stub's one story has `fields.status.name =
"Done"` but no `name` attribute on `fields`, so the item's status is `None`. -/
theorem C9_status_guard_witness :
    dictGet [("d:e", 3)] (session_cache_key "d" "e") = some 3 ∧
      sampleSvc.issue 3 "PROJ-10" = .ok ⟨"PROJ-10", ⟨"Epic summary", none⟩⟩ ∧
      sampleSvc.search_issues 3 (jql_query "PROJ-10") 100 = .ok [sampleStory] ∧
      ((fetch_epic_stories sampleSvc [("d:e", 3)] ⟨"d", "e", "PROJ-10", "t"⟩).2.1 =
        .ok { epic_key := "PROJ-10"
              epic_summary := "Epic summary"
              epic_description := none
              stories := [sampleStory].map (storyToItem "PROJ-10") } ∧
      ∀ story ∈ [sampleStory], (storyToItem "PROJ-10" story).status =
        if (story.fields.name).isSome then some story.fields.status.name else none) :=
  ⟨rfl, rfl, rfl,
   C9_status_guard_checks_fields sampleSvc [("d:e", 3)] ⟨"d", "e", "PROJ-10", "t"⟩ 3
     ⟨"PROJ-10", ⟨"Epic summary", none⟩⟩ [sampleStory] rfl rfl rfl⟩

/-- C10: once a handle is cached for `domain:email`, `/fetch-stories` never
reads the supplied token: two requests identical except for `jira_token`
behave identically on a session-cache hit, and no client construction
(authentication round-trip) happens. -/
theorem C10_token_ignored_on_session_hit
    (svc : JiraService) (cached_dict : List (String × Nat))
    (r1 r2 : IssueFetchRequest) (jira : Nat)
    (hd : r1.domain = r2.domain) (he : r1.email = r2.email) (hj : r1.jira_id = r2.jira_id)
    (hhit : dictGet cached_dict (session_cache_key r1.domain r1.email) = some jira) :
    fetch_epic_stories svc cached_dict r1 = fetch_epic_stories svc cached_dict r2 ∧
      (fetch_epic_stories svc cached_dict r1).2.2 = 0 := by
  obtain ⟨d1, e1, j1, t1⟩ := r1
  obtain ⟨d2, e2, j2, t2⟩ := r2
  simp only [IssueFetchRequest.mk.injEq] at hd he hj ⊢
  subst hd
  subst he
  subst hj
  constructor
  · simp [fetch_epic_stories, hhit]
  · simp only [fetch_epic_stories]
    rw [hhit]
    exact fetchWithClient_conns svc cached_dict j1 jira 0

/-- Witness for C10: two requests to the healthy stub differing only in
their token, with the handle already cached. -/
theorem C10_token_ignored_witness :
    ("d" : String) = "d" ∧ ("e" : String) = "e" ∧ ("PROJ-10" : String) = "PROJ-10" ∧
      dictGet [("d:e", 3)] (session_cache_key "d" "e") = some 3 ∧
      (fetch_epic_stories sampleSvc [("d:e", 3)] ⟨"d", "e", "PROJ-10", "token-one"⟩ =
          fetch_epic_stories sampleSvc [("d:e", 3)] ⟨"d", "e", "PROJ-10", "token-two"⟩ ∧
        (fetch_epic_stories sampleSvc [("d:e", 3)] ⟨"d", "e", "PROJ-10", "token-one"⟩).2.2 = 0) :=
  ⟨rfl, rfl, rfl, rfl,
   C10_token_ignored_on_session_hit sampleSvc [("d:e", 3)]
     ⟨"d", "e", "PROJ-10", "token-one"⟩ ⟨"d", "e", "PROJ-10", "token-two"⟩ 3
     rfl rfl rfl rfl⟩

end JiraTCG
